import Mathlib

/-!
Shallow embedding of the CodeVisor client (the `FlowchartGenerator` React
component) and the natural-language specification's claims about it.

The component's state (`useState` fields) is modelled as a record
`SessionState`; the effect that starts/stops the 1-second autoplay interval
is modelled by an explicit `intervalActive` flag re-synchronised after every
transition whose dependencies (`isPlaying`, `currentStep`, `executionSteps`)
changed; `generateFlowchart`'s network round trip is modelled by passing the
fetch outcome as an explicit argument.  Presentation-only fields (dark mode,
toasts, zoom scale, accent color, dropdown flags) carry no contractual
behavior and are omitted.
-/

namespace CodeVisor

/-- Whitespace class of JavaScript: the characters removed by
`String.prototype.trim` and matched by the regex class `\s`
(ASCII whitespace, NBSP, BOM and the line terminators; the rarer Unicode
space separators of the Zs category behave identically and are elided). -/
def jsWhitespace (c : Char) : Bool :=
  c == ' ' || c == '\t' || c == '\n' || c == '\r' || c == '\x0b' ||
  c == '\x0c' || c == '\u00A0' || c == '\uFEFF' || c == '\u2028' || c == '\u2029'

/-- Word-character class of the JavaScript regex `\w`: `[A-Za-z0-9_]`. -/
def jsWordChar (c : Char) : Bool :=
  ('a' ≤ c && c ≤ 'z') || ('A' ≤ c && c ≤ 'Z') || ('0' ≤ c && c ≤ '9') || c == '_'

/-- Line terminators, which the JavaScript regex `.` does not match. -/
def jsLineTerm (c : Char) : Bool :=
  c == '\n' || c == '\r' || c == '\u2028' || c == '\u2029'

/-- JavaScript `String.prototype.trim`: strip `jsWhitespace` from both ends. -/
def jsTrim (s : String) : String :=
  ⟨((s.data.dropWhile jsWhitespace).reverse.dropWhile jsWhitespace).reverse⟩

/-- Match a literal character sequence at the head of the input, returning
the rest of the input on success. -/
def matchChars : List Char → List Char → Option (List Char)
  | [], s => some s
  | _ :: _, [] => none
  | c :: cs, d :: ds => if c == d then matchChars cs ds else none

/-- Match one-or-more characters of a class, greedily (the classes in the
pattern below are pairwise disjoint from what follows them, so maximal munch
coincides with backtracking regex semantics). -/
def matchPlus (p : Char → Bool) : List Char → Option (List Char)
  | [] => none
  | c :: cs => if p c then some (cs.dropWhile p) else none

/-- Match the regex tail `.*\):` — a greedy run of non-line-terminators
followed by the literal `):` (so it consumes up to the last `):` reachable
on the current line). -/
def matchDotStarClose : List Char → Option (List Char)
  | [] => none
  | c :: cs =>
    match (if jsLineTerm c then none else matchDotStarClose cs) with
    | some r => some r
    | none => matchChars [')', ':'] (c :: cs)

/-- Match the source's optimization-rewrite pattern
`for\s+\w+\s+in\s+range\(.*\):` at the head of the input. -/
def matchOptimPattern (s : List Char) : Option (List Char) := do
  let s ← matchChars ['f', 'o', 'r'] s
  let s ← matchPlus jsWhitespace s
  let s ← matchPlus jsWordChar s
  let s ← matchPlus jsWhitespace s
  let s ← matchChars ['i', 'n'] s
  let s ← matchPlus jsWhitespace s
  let s ← matchChars ['r', 'a', 'n', 'g', 'e', '('] s
  matchDotStarClose s

/-- The replacement text the source substitutes for each match (the braces
of the object literal are written with hex escapes). -/
def optimReplacement : String :=
  "# Optimized: Use dictionary for faster lookups\nlookup_dict = \x7b\x7d\nfor key, value in enumerate(range(...)):\n    lookup_dict[key] = value"

/-- Driver of the global (`/g`) regex replacement: scan left to right,
substitute each match and continue after it, otherwise keep the character.
The fuel argument (initialised to the input length) only serves structural
termination; every match consumes at least one character, so with that
initial fuel the `0` case is unreachable (`replaceOptimGo_fuel`). -/
def replaceOptimGo : Nat → List Char → List Char
  | _, [] => []
  | 0, s => s
  | fuel + 1, c :: cs =>
    match matchOptimPattern (c :: cs) with
    | some rest => optimReplacement.data ++ replaceOptimGo fuel rest
    | none => c :: replaceOptimGo fuel cs

/-- The source expression
`code.replace(/for\s+\w+\s+in\s+range\(.*\):/g, "# Optimized: ...")`. -/
def jsReplaceOptim (code : String) : String :=
  ⟨replaceOptimGo code.data.length code.data⟩

theorem matchChars_length_le :
    ∀ (l s r : List Char), matchChars l s = some r → r.length ≤ s.length := by
  intro l
  induction l with
  | nil => intro s r h; simp [matchChars] at h; simp [h]
  | cons c cs ih =>
    intro s r h
    cases s with
    | nil => simp [matchChars] at h
    | cons d ds =>
      simp only [matchChars] at h
      split at h
      · exact Nat.le_trans (ih ds r h) (Nat.le_succ _)
      · exact absurd h (by simp)

theorem matchChars_length_lt (a : Char) (l s r : List Char)
    (h : matchChars (a :: l) s = some r) : r.length < s.length := by
  cases s with
  | nil => simp [matchChars] at h
  | cons d ds =>
    simp only [matchChars] at h
    split at h
    · exact Nat.lt_succ_of_le (matchChars_length_le l ds r h)
    · exact absurd h (by simp)

theorem dropWhile_length_le (p : Char → Bool) :
    ∀ (l : List Char), (l.dropWhile p).length ≤ l.length := by
  intro l
  induction l with
  | nil => simp [List.dropWhile]
  | cons c cs ih =>
    simp only [List.dropWhile]
    split
    · exact Nat.le_trans ih (Nat.le_succ _)
    · simp

theorem matchPlus_length_lt (p : Char → Bool) (s r : List Char)
    (h : matchPlus p s = some r) : r.length < s.length := by
  cases s with
  | nil => simp [matchPlus] at h
  | cons c cs =>
    simp only [matchPlus] at h
    split at h
    · cases h
      exact Nat.lt_succ_of_le (dropWhile_length_le p cs)
    · exact absurd h (by simp)

theorem matchDotStarClose_length_lt :
    ∀ (s r : List Char), matchDotStarClose s = some r → r.length < s.length := by
  intro s
  induction s with
  | nil => intro r h; simp [matchDotStarClose] at h
  | cons c cs ih =>
    intro r h
    simp only [matchDotStarClose] at h
    by_cases hterm : jsLineTerm c = true
    · simp only [hterm, if_true] at h
      exact matchChars_length_lt _ _ _ _ h
    · simp only [hterm, if_false, Bool.false_eq_true] at h
      cases heq : matchDotStarClose cs with
      | some r2 =>
        rw [heq] at h
        simp only [Option.some.injEq] at h
        subst h
        exact Nat.lt_trans (ih r2 heq) (Nat.lt_succ_self _)
      | none =>
        rw [heq] at h
        exact matchChars_length_lt _ _ _ _ h

theorem matchOptimPattern_length_lt (s r : List Char)
    (h : matchOptimPattern s = some r) : r.length < s.length := by
  simp only [matchOptimPattern, bind, Option.bind_eq_some] at h
  obtain ⟨s1, h1, s2, h2, s3, h3, s4, h4, s5, h5, s6, h6, s7, h7, h8⟩ := h
  have q1 := matchChars_length_lt _ _ _ _ h1
  have q2 := matchPlus_length_lt _ _ _ h2
  have q3 := matchPlus_length_lt _ _ _ h3
  have q4 := matchPlus_length_lt _ _ _ h4
  have q5 := matchChars_length_lt _ _ _ _ h5
  have q6 := matchPlus_length_lt _ _ _ h6
  have q7 := matchChars_length_lt _ _ _ _ h7
  have q8 := matchDotStarClose_length_lt _ _ h8
  omega

theorem replaceOptimGo_fuel :
    ∀ (f g : Nat) (s : List Char), s.length ≤ f → s.length ≤ g →
      replaceOptimGo f s = replaceOptimGo g s := by
  intro f
  induction f with
  | zero =>
    intro g s hf _
    cases s with
    | nil => cases g <;> rfl
    | cons c cs => simp at hf
  | succ f ih =>
    intro g s hf hg
    cases s with
    | nil => cases g <;> rfl
    | cons c cs =>
      cases g with
      | zero => simp at hg
      | succ g =>
        simp only [replaceOptimGo]
        cases heq : matchOptimPattern (c :: cs) with
        | some rest =>
          have hlen := matchOptimPattern_length_lt _ _ heq
          simp only [List.length_cons] at hf hg hlen
          show optimReplacement.data ++ replaceOptimGo f rest
              = optimReplacement.data ++ replaceOptimGo g rest
          rw [ih g rest (by omega) (by omega)]
        | none =>
          simp only [List.length_cons] at hf hg
          show c :: replaceOptimGo f cs = c :: replaceOptimGo g cs
          rw [ih g cs (by omega) (by omega)]

/-- One entry of the response's `execution_steps` array. -/
structure ExecutionStep where
  node_id : String
  description : String
  «variables» : Option (List (String × String))
  output : Option String
deriving DecidableEq, Repr

/-- Shape of the response's `complexity_analysis` object. -/
structure ComplexityInfo where
  time_complexity : String
  space_complexity : String
  details : List String
deriving DecidableEq, Repr

/-- Shape of the response's `optimization_suggestions` object. -/
structure OptimizationInfo where
  suggestions : List String
  optimized_code : String
deriving DecidableEq, Repr

/-- One entry of `memory_analysis.bottlenecks`. -/
structure MemoryBottleneck where
  line : Int
  description : String
deriving DecidableEq, Repr

/-- One entry of `memory_analysis.suggestions`. -/
structure MemorySuggestion where
  line : Int
  suggestion : String
deriving DecidableEq, Repr

/-- Shape of the response's `memory_analysis` object. -/
structure MemoryInfo where
  estimated_memory_usage : String
  bottlenecks : List MemoryBottleneck
  suggestions : List MemorySuggestion
deriving DecidableEq, Repr

/-- JSON envelope returned by the `/generate-flowchart` service; `none`
models a field that is absent or `null`. -/
structure ServerResponse where
  flowchart : Option String
  execution_steps : Option (List ExecutionStep)
  complexity_analysis : Option ComplexityInfo
  optimization_suggestions : Option OptimizationInfo
  memory_analysis : Option MemoryInfo
deriving DecidableEq, Repr

/-- JavaScript `o || d` for a string-valued field: `undefined`, `null` and
the empty string are falsy, so they yield the default. -/
def jsOrStr (o : Option String) (d : String) : String :=
  match o with
  | none => d
  | some t => if t.isEmpty then d else t

/-- The fixed fallback object for a missing `complexity_analysis`. -/
def defaultComplexity : ComplexityInfo :=
  { time_complexity := "O(n)"
    space_complexity := "O(1)"
    details := ["Detected 1 loop, leading to linear time complexity."] }

/-- The fallback object for a missing `optimization_suggestions`: the
`suggestions` list is fixed, but `optimized_code` is computed from the
submitted code by the regex rewrite `code.replace(/for\s+\w+\s+in\s+range\(.*\):/g, ...)`. -/
def defaultOptimization (code : String) : OptimizationInfo :=
  { suggestions := ["Consider using a dictionary for faster lookups instead of nested loops."]
    optimized_code := jsReplaceOptim code }

/-- The fixed fallback object for a missing `memory_analysis`. -/
def defaultMemory : MemoryInfo :=
  { estimated_memory_usage := "N/A"
    bottlenecks := []
    suggestions := [] }

/-- The `advancedData` object the success path builds: each field is
`data.field || default`.  For the object- and array-valued fields every
present object or array (even an empty array) is truthy in JavaScript, so
`Option.getD` is the exact semantics; for the string-valued `flowchart`
the empty string is falsy as well (`jsOrStr`). -/
structure AdvancedData where
  flowchart : String
  execution_steps : List ExecutionStep
  complexity_analysis : ComplexityInfo
  optimization_suggestions : OptimizationInfo
  memory_analysis : MemoryInfo
deriving DecidableEq, Repr

def mkAdvancedData (code : String) (data : ServerResponse) : AdvancedData :=
  { flowchart := jsOrStr data.flowchart ""
    execution_steps := data.execution_steps.getD []
    complexity_analysis := data.complexity_analysis.getD defaultComplexity
    optimization_suggestions := data.optimization_suggestions.getD (defaultOptimization code)
    memory_analysis := data.memory_analysis.getD defaultMemory }

/-- The `useState` fields of `FlowchartGenerator` that carry contractual
behavior, plus `intervalActive`, which records whether the autoplay
`setInterval` of the playback effect is currently scheduled. -/
structure SessionState where
  code : String
  language : String
  flowchartSvg : String
  executionSteps : List ExecutionStep
  currentStep : Int
  isPlaying : Bool
  loading : Bool
  errorMsg : String
  complexityAnalysis : Option ComplexityInfo
  optimizationSuggestions : Option OptimizationInfo
  memoryAnalysis : Option MemoryInfo
  showOptimizedCode : Bool
  showMemoryDetails : Bool
  intervalActive : Bool
deriving DecidableEq, Repr

/-- Initial state of the component (the `useState` initial values). -/
def initialSession : SessionState :=
  { code := ""
    language := "python"
    flowchartSvg := ""
    executionSteps := []
    currentStep := -1
    isPlaying := false
    loading := false
    errorMsg := ""
    complexityAnalysis := none
    optimizationSuggestions := none
    memoryAnalysis := none
    showOptimizedCode := false
    showMemoryDetails := false
    intervalActive := false }

/-- Re-run of the playback `useEffect`: after its cleanup (`clearInterval`)
it schedules a fresh interval exactly when
`isPlaying && currentStep < executionSteps.length - 1`.  The effect runs
after every render whose dependencies changed; on a synced state a re-run
is the identity, so transitions apply it unconditionally. -/
def syncTicker (s : SessionState) : SessionState :=
  { s with intervalActive :=
      s.isPlaying && decide (s.currentStep < (s.executionSteps.length : Int) - 1) }

/-- The `setInterval` callback:
`setCurrentStep(prev => prev + 1 >= executionSteps.length ? (setIsPlaying(false), prev) : prev + 1)`. -/
def tickBody (s : SessionState) : SessionState :=
  if s.currentStep + 1 ≥ (s.executionSteps.length : Int) then
    { s with isPlaying := false }
  else
    { s with currentStep := s.currentStep + 1 }

/-- One elapsed interval period: the callback fires only while the interval
is scheduled, and the re-render that follows re-syncs the effect. -/
def tick (s : SessionState) : SessionState :=
  if s.intervalActive then syncTicker (tickBody s) else s

/-- The Play/Pause button: `setIsPlaying(!isPlaying)`. -/
def togglePlay (s : SessionState) : SessionState :=
  syncTicker { s with isPlaying := !s.isPlaying }

/-- The Step Forward button: `setIsPlaying(false);
setCurrentStep(prev => Math.min(prev + 1, executionSteps.length - 1))`. -/
def stepForward (s : SessionState) : SessionState :=
  syncTicker { s with
    isPlaying := false
    currentStep := min (s.currentStep + 1) ((s.executionSteps.length : Int) - 1) }

/-- The Step Back button: `setIsPlaying(false);
setCurrentStep(prev => Math.max(prev - 1, -1))`. -/
def stepBack (s : SessionState) : SessionState :=
  syncTicker { s with
    isPlaying := false
    currentStep := max (s.currentStep - 1) (-1) }

def validationErrorMsg : String := "⚠️ Please enter some code."

def generationFailedMsg : String := "❌ Error generating flowchart."

def timedOutMsg : String := "❌ Request timed out. Please try again."

def serverFailedMsg : String := "❌ Server failed. Check console."

/-- The state-reset block `generateFlowchart` runs before issuing the
request (note: `flowchartSvg` is not among the fields it resets). -/
def beginSubmit (s : SessionState) : SessionState :=
  syncTicker { s with
    errorMsg := ""
    loading := true
    currentStep := -1
    executionSteps := []
    isPlaying := false
    complexityAnalysis := none
    optimizationSuggestions := none
    memoryAnalysis := none
    showOptimizedCode := false
    showMemoryDetails := false }

/-- How the awaited `fetch` ends: a parsed JSON body, a thrown
`HTTP error! Status: ...` for a non-2xx status, an `AbortError` raised by
the timeout's `controller.abort()`, or any other network-level rejection. -/
inductive FetchOutcome where
  | success (data : ServerResponse)
  | httpError (status : Nat)
  | abortError
  | networkError
deriving DecidableEq, Repr

/-- The `setTimeout(() => controller.abort(), 10000)` deadline, in ms. -/
def fetchTimeoutMs : Nat := 10000

/-- Outcome actually observed by the `await`: if no response has arrived by
the deadline (`arrivalMs = none`, or arrival not strictly before the abort
timer fires), the abort wins and the `await` throws `AbortError`; otherwise
the delivered outcome is observed. -/
def networkDecision (arrivalMs : Option Nat) (delivered : FetchOutcome) : FetchOutcome :=
  match arrivalMs with
  | none => FetchOutcome.abortError
  | some t => if fetchTimeoutMs ≤ t then FetchOutcome.abortError else delivered

/-- The `try` block's success tail: build `advancedData`, write the five
result slots, then flag `GenerationFailed` when the (defaulted) flowchart
is empty; `code` is the value captured by the closure when the request was
issued. -/
def applySuccess (code : String) (data : ServerResponse) (s : SessionState) : SessionState :=
  let a := mkAdvancedData code data
  let s1 := { s with
    flowchartSvg := a.flowchart
    executionSteps := a.execution_steps
    complexityAnalysis := some a.complexity_analysis
    optimizationSuggestions := some a.optimization_suggestions
    memoryAnalysis := some a.memory_analysis }
  if a.flowchart.isEmpty then { s1 with errorMsg := generationFailedMsg } else s1

/-- Resolution of one issued request against the state current at
resolution time: the `try`/`catch` dispatch, the `finally` block's
`setLoading(false)`, and the re-run of the playback effect. -/
def applyOutcome (code : String) (oc : FetchOutcome) (s : SessionState) : SessionState :=
  let s2 := match oc with
    | FetchOutcome.success data => applySuccess code data s
    | FetchOutcome.abortError => { s with errorMsg := timedOutMsg }
    | FetchOutcome.httpError _ => { s with errorMsg := serverFailedMsg }
    | FetchOutcome.networkError => { s with errorMsg := serverFailedMsg }
  syncTicker { s2 with loading := false }

/-- The whole of `generateFlowchart` when its single request resolves
without interleaving: the blank-code guard, the pre-request reset, and the
resolution of the request with outcome `oc`. -/
def generateFlowchart (s : SessionState) (oc : FetchOutcome) : SessionState :=
  if (jsTrim s.code).isEmpty then { s with errorMsg := validationErrorMsg }
  else applyOutcome s.code oc (beginSubmit s)

/-- The body `JSON.stringify({ code, language, advanced: true })` posted to
the service. -/
structure NetworkRequest where
  url : String
  code : String
  language : String
  advanced : Bool
deriving DecidableEq, Repr

def flowchartEndpoint : String := "http://127.0.0.1:5000/generate-flowchart"

/-- The network requests one call to `generateFlowchart` issues. -/
def generateFlowchartRequests (s : SessionState) : List NetworkRequest :=
  if (jsTrim s.code).isEmpty then []
  else [{ url := flowchartEndpoint, code := s.code, language := s.language, advanced := true }]

/-- C1: for code that is empty or whitespace-only after trimming,
`generateFlowchart` makes zero network calls, surfaces the validation
error message, and leaves the flowchart, execution steps, playback cursor
and all analysis slots unchanged. -/
theorem submit_blank_no_network_session_unchanged
    (s : SessionState) (oc : FetchOutcome)
    (h : (jsTrim s.code).isEmpty = true) :
    generateFlowchartRequests s = [] ∧
    (generateFlowchart s oc).errorMsg = validationErrorMsg ∧
    (generateFlowchart s oc).flowchartSvg = s.flowchartSvg ∧
    (generateFlowchart s oc).executionSteps = s.executionSteps ∧
    (generateFlowchart s oc).currentStep = s.currentStep ∧
    (generateFlowchart s oc).isPlaying = s.isPlaying ∧
    (generateFlowchart s oc).complexityAnalysis = s.complexityAnalysis ∧
    (generateFlowchart s oc).optimizationSuggestions = s.optimizationSuggestions ∧
    (generateFlowchart s oc).memoryAnalysis = s.memoryAnalysis := by
  simp [generateFlowchart, generateFlowchartRequests, h]

/-- Witness for C1 at `code = " \t\n "`. -/
theorem submit_blank_witness :
    generateFlowchartRequests { initialSession with code := " \t\n " } = [] ∧
    (generateFlowchart { initialSession with code := " \t\n " }
        FetchOutcome.networkError).errorMsg = validationErrorMsg :=
  ⟨(submit_blank_no_network_session_unchanged _ FetchOutcome.networkError (by decide)).1,
   (submit_blank_no_network_session_unchanged _ FetchOutcome.networkError (by decide)).2.1⟩

/-- C3 counterexample: submitting non-blank code does NOT clear the
`flowchartSvg` slot before the request resolves — the pre-request reset
(`beginSubmit`, the state observable while `loading = true`) leaves the
prior flowchart markup in place, so the claim that every prior analysis
slot including the flowchart is cleared fails at this input. -/
theorem submit_leaves_stale_flowchart :
    (jsTrim ({ initialSession with
        code := "print(2)"
        flowchartSvg := "<svg>old</svg>" } : SessionState).code).isEmpty = false ∧
    (beginSubmit { initialSession with
        code := "print(2)"
        flowchartSvg := "<svg>old</svg>" }).loading = true ∧
    (beginSubmit { initialSession with
        code := "print(2)"
        flowchartSvg := "<svg>old</svg>" }).flowchartSvg = "<svg>old</svg>" ∧
    ("<svg>old</svg>" : String) ≠ "" := by decide

/-- C3 amended: submitting non-blank code immediately clears
`executionSteps`, the playback cursor and the three analysis slots, and
enters the loading state — but it leaves the prior `flowchartSvg`
untouched until the response arrives. -/
theorem submit_clears_slots_but_not_flowchart
    (s : SessionState) (oc : FetchOutcome)
    (h : (jsTrim s.code).isEmpty = false) :
    (beginSubmit s).executionSteps = [] ∧
    (beginSubmit s).currentStep = -1 ∧
    (beginSubmit s).isPlaying = false ∧
    (beginSubmit s).complexityAnalysis = none ∧
    (beginSubmit s).optimizationSuggestions = none ∧
    (beginSubmit s).memoryAnalysis = none ∧
    (beginSubmit s).flowchartSvg = s.flowchartSvg ∧
    (beginSubmit s).loading = true ∧
    generateFlowchart s oc = applyOutcome s.code oc (beginSubmit s) := by
  refine ⟨?_, ?_, ?_, ?_, ?_, ?_, ?_, ?_, ?_⟩ <;>
    simp [beginSubmit, syncTicker, generateFlowchart, h]

/-- Witness for C3's amended theorem at a concrete session. -/
theorem submit_clears_slots_witness :
    (beginSubmit { initialSession with
        code := "print(2)"
        complexityAnalysis := some defaultComplexity }).complexityAnalysis = none ∧
    (beginSubmit { initialSession with
        code := "print(2)"
        complexityAnalysis := some defaultComplexity }).loading = true :=
  ⟨(submit_clears_slots_but_not_flowchart _ FetchOutcome.networkError (by decide)).2.2.2.1,
   (submit_clears_slots_but_not_flowchart _ FetchOutcome.networkError (by decide)).2.2.2.2.2.2.2.1⟩

def respNoOptimization : ServerResponse :=
  { flowchart := some "<svg/>"
    execution_steps := some []
    complexity_analysis := none
    optimization_suggestions := none
    memory_analysis := none }

/-- C4 counterexample: the fallback for a missing
`optimization_suggestions` is derived from the submitted code
(`optimized_code = code.replace(...)`), so two different submitted code
strings produce different placeholder objects for the same response. -/
theorem default_optimization_depends_on_code :
    (mkAdvancedData "print(1)" respNoOptimization).optimization_suggestions ≠
      (mkAdvancedData "print(2)" respNoOptimization).optimization_suggestions := by decide

/-- C4 amended: the complexity and memory fallbacks are fixed objects,
defined once and independent of the submitted code, but the optimization
fallback's `optimized_code` is computed from the submitted code by a regex
rewrite, so it varies with the input. -/
theorem defaults_fixed_except_optimized_code
    (c c' : String) (r : ServerResponse) :
    (mkAdvancedData c { r with complexity_analysis := none }).complexity_analysis
      = defaultComplexity ∧
    (mkAdvancedData c { r with memory_analysis := none }).memory_analysis
      = defaultMemory ∧
    (mkAdvancedData c { r with complexity_analysis := none }).complexity_analysis
      = (mkAdvancedData c' { r with complexity_analysis := none }).complexity_analysis ∧
    (mkAdvancedData c { r with memory_analysis := none }).memory_analysis
      = (mkAdvancedData c' { r with memory_analysis := none }).memory_analysis ∧
    (mkAdvancedData c { r with optimization_suggestions := none }).optimization_suggestions
      = defaultOptimization c := by
  simp [mkAdvancedData]

/-- C5: the defaults merge is independent per slot — a response that omits
`complexity_analysis` but carries `optimization_suggestions` merges to the
fixed default complexity object together with the server-supplied
optimization object. -/
theorem merge_slots_independent (c : String) (r : ServerResponse) (o : OptimizationInfo) :
    (mkAdvancedData c { r with
        complexity_analysis := none
        optimization_suggestions := some o }).complexity_analysis = defaultComplexity ∧
    (mkAdvancedData c { r with
        complexity_analysis := none
        optimization_suggestions := some o }).optimization_suggestions = o := by
  simp [mkAdvancedData]

/-- C6: an HTTP-successful response whose flowchart is empty after
defaulting drives the session into the generation-failed error state,
regardless of which other fields the response carries. -/
theorem empty_flowchart_reports_generation_failed
    (s : SessionState) (r : ServerResponse)
    (hcode : (jsTrim s.code).isEmpty = false)
    (hfc : jsOrStr r.flowchart "" = "") :
    (generateFlowchart s (FetchOutcome.success r)).errorMsg = generationFailedMsg := by
  simp [generateFlowchart, hcode, applyOutcome, applySuccess, mkAdvancedData, hfc,
    syncTicker, show "".isEmpty = true from rfl]

/-- A response with no flowchart but every other field present. -/
def respEmptyFlowchart : ServerResponse :=
  { flowchart := none
    execution_steps := some [{ node_id := "n1", description := "print",
                               «variables» := none, output := none }]
    complexity_analysis := some defaultComplexity
    optimization_suggestions := some { suggestions := [], optimized_code := "" }
    memory_analysis := some defaultMemory }

/-- Witness for C6 at a concrete session and response. -/
theorem empty_flowchart_witness :
    (generateFlowchart { initialSession with code := "print(1)" }
        (FetchOutcome.success respEmptyFlowchart)).errorMsg = generationFailedMsg :=
  empty_flowchart_reports_generation_failed _ _ (by decide) (by decide)

/-- C7: the manual Step Forward / Step Back moves always pause playback and
clamp the cursor — forward to `executionSteps.length - 1`, back to `-1` —
so a forward step at the last step and a back step at `-1` leave the
position unchanged. -/
theorem manual_steps_clamp_and_pause (s : SessionState) :
    (stepForward s).isPlaying = false ∧
    (stepBack s).isPlaying = false ∧
    (stepForward s).currentStep
      = min (s.currentStep + 1) ((s.executionSteps.length : Int) - 1) ∧
    (stepBack s).currentStep = max (s.currentStep - 1) (-1) ∧
    (stepForward { s with
        currentStep := (s.executionSteps.length : Int) - 1 }).currentStep
      = (s.executionSteps.length : Int) - 1 ∧
    (stepBack { s with currentStep := -1 }).currentStep = -1 := by
  refine ⟨?_, ?_, ?_, ?_, ?_, ?_⟩ <;> simp [stepForward, stepBack, syncTicker]

/-- C8: the abort timer is armed at the fixed 10000 ms ceiling, any request
with no response strictly before that deadline resolves as an abort, and
the timed-out failure message is distinct from the one reported for HTTP
and other network failures. -/
theorem timeout_aborts_with_distinct_state
    (s : SessionState) (d : FetchOutcome) (t st : Nat)
    (hcode : (jsTrim s.code).isEmpty = false)
    (ht : fetchTimeoutMs ≤ t) :
    fetchTimeoutMs = 10000 ∧
    networkDecision none d = FetchOutcome.abortError ∧
    networkDecision (some t) d = FetchOutcome.abortError ∧
    (generateFlowchart s (networkDecision (some t) d)).errorMsg = timedOutMsg ∧
    (generateFlowchart s (FetchOutcome.httpError st)).errorMsg = serverFailedMsg ∧
    (generateFlowchart s FetchOutcome.networkError).errorMsg = serverFailedMsg ∧
    timedOutMsg ≠ serverFailedMsg := by
  refine ⟨rfl, rfl, ?_, ?_, ?_, ?_, by decide⟩ <;>
    simp [networkDecision, ht, generateFlowchart, hcode, applyOutcome, syncTicker]

/-- Witness for C8 at a concrete session with a response that never
arrives before the 10-second mark. -/
theorem timeout_witness :
    (generateFlowchart { initialSession with code := "print(1)" }
        (networkDecision (some 10000) FetchOutcome.networkError)).errorMsg = timedOutMsg :=
  (timeout_aborts_with_distinct_state _ FetchOutcome.networkError 10000 500
      (by decide) (by decide)).2.2.2.1

def demoStep : ExecutionStep :=
  { node_id := "n1", description := "print", «variables» := none, output := none }

/-- A fully populated response carrying exactly one execution step. -/
def respOneStep : ServerResponse :=
  { flowchart := some "<svg/>"
    execution_steps := some [demoStep]
    complexity_analysis := some defaultComplexity
    optimization_suggestions := some { suggestions := [], optimized_code := "" }
    memory_analysis := some defaultMemory }

/-- The session after a successful submit that returned one execution
step: the playback sub-machine is in Idle. -/
def oneStepSession : SessionState :=
  generateFlowchart { initialSession with code := "print(1)" }
    (FetchOutcome.success respOneStep)

/-- C2, at the failing input `N = 1`: pressing Play from Idle and letting
the ticker fire gives `currentStep = min(k-1, N-1)` as claimed, but
`isPlaying` never auto-clears — once `currentStep` reaches `N-1` the
playback effect re-runs, clears the interval and schedules no new one, so
the callback branch that would call `setIsPlaying(false)` is unreachable
and the session stays `isPlaying = true` forever. -/
theorem playback_completion_leaves_isPlaying_true :
    oneStepSession.currentStep = -1 ∧
    oneStepSession.isPlaying = false ∧
    oneStepSession.executionSteps.length = 1 ∧
    (tick (togglePlay oneStepSession)).currentStep = 0 ∧
    (tick (togglePlay oneStepSession)).isPlaying = true ∧
    (tick (tick (togglePlay oneStepSession))).currentStep = 0 ∧
    (tick (tick (togglePlay oneStepSession))).isPlaying = true := by decide

def respGenA : ServerResponse :=
  { flowchart := some "<svg>A</svg>"
    execution_steps := some []
    complexity_analysis := some defaultComplexity
    optimization_suggestions := some { suggestions := [], optimized_code := "" }
    memory_analysis := some defaultMemory }

def respGenB : ServerResponse :=
  { flowchart := some "<svg>B</svg>"
    execution_steps := some []
    complexity_analysis := some defaultComplexity
    optimization_suggestions := some { suggestions := [], optimized_code := "" }
    memory_analysis := some defaultMemory }

/-- Event-loop interleaving of two overlapping submits: submit of
`"codeA"` (generation g), then submit of `"codeB"` (generation g+1) while
the first request is still in flight, then resolution of the newer
request. -/
def overlapAfterNewer : SessionState :=
  applyOutcome "codeB" (FetchOutcome.success respGenB)
    (beginSubmit { beginSubmit { initialSession with code := "codeA" } with
      code := "codeB" })

/-- Late resolution of the superseded generation-g request on top of the
completed generation-(g+1) result. -/
def overlapFinal : SessionState :=
  applyOutcome "codeA" (FetchOutcome.success respGenA) overlapAfterNewer

/-- C9 counterexample: the newer request's completed result
(`flowchartSvg = "<svg>B</svg>"`) is mutated by the stale generation-g
response arriving afterwards — the final visible flowchart is the stale
`"<svg>A</svg>"`, refuting the claim that a superseded response never
mutates the later request's result. -/
theorem stale_response_overwrites_newer_result :
    overlapAfterNewer.flowchartSvg = "<svg>B</svg>" ∧
    overlapFinal.flowchartSvg = "<svg>A</svg>" ∧
    ("<svg>A</svg>" : String) ≠ "<svg>B</svg>" := by decide

/-- C9 amended: the client has no generation guard — whenever a request
resolves successfully, its handler unconditionally overwrites every
visible result slot with its own response's data, whatever state a newer
request has produced in the meantime (last write wins). -/
theorem stale_success_handler_overwrites
    (codeStale : String) (rStale : ServerResponse) (s : SessionState) :
    (applyOutcome codeStale (FetchOutcome.success rStale) s).flowchartSvg
      = jsOrStr rStale.flowchart "" ∧
    (applyOutcome codeStale (FetchOutcome.success rStale) s).executionSteps
      = rStale.execution_steps.getD [] ∧
    (applyOutcome codeStale (FetchOutcome.success rStale) s).complexityAnalysis
      = some (rStale.complexity_analysis.getD defaultComplexity) ∧
    (applyOutcome codeStale (FetchOutcome.success rStale) s).optimizationSuggestions
      = some (rStale.optimization_suggestions.getD (defaultOptimization codeStale)) ∧
    (applyOutcome codeStale (FetchOutcome.success rStale) s).memoryAnalysis
      = some (rStale.memory_analysis.getD defaultMemory) := by
  refine ⟨?_, ?_, ?_, ?_, ?_⟩ <;>
    simp only [applyOutcome, applySuccess, mkAdvancedData, syncTicker] <;>
    split <;> rfl

/-- C10: when the defaulted flowchart is empty the session reports the
generation-failed error, yet the other four result slots have already
been overwritten with the server-supplied or default values — the error
is not atomic with respect to the result state. -/
theorem generation_failed_still_overwrites_slots
    (s : SessionState) (r : ServerResponse)
    (hcode : (jsTrim s.code).isEmpty = false)
    (hfc : jsOrStr r.flowchart "" = "") :
    (generateFlowchart s (FetchOutcome.success r)).errorMsg = generationFailedMsg ∧
    (generateFlowchart s (FetchOutcome.success r)).executionSteps
      = r.execution_steps.getD [] ∧
    (generateFlowchart s (FetchOutcome.success r)).complexityAnalysis
      = some (r.complexity_analysis.getD defaultComplexity) ∧
    (generateFlowchart s (FetchOutcome.success r)).optimizationSuggestions
      = some (r.optimization_suggestions.getD (defaultOptimization s.code)) ∧
    (generateFlowchart s (FetchOutcome.success r)).memoryAnalysis
      = some (r.memory_analysis.getD defaultMemory) := by
  refine ⟨?_, ?_, ?_, ?_, ?_⟩ <;>
    simp [generateFlowchart, hcode, applyOutcome, applySuccess, mkAdvancedData,
      hfc, syncTicker, show "".isEmpty = true from rfl]

/-- Witness for C10: with no flowchart in the response, the error state is
entered and the execution steps slot nevertheless holds the
server-supplied step. -/
theorem generation_failed_witness :
    (generateFlowchart { initialSession with code := "while True: pass" }
        (FetchOutcome.success respEmptyFlowchart)).errorMsg = generationFailedMsg ∧
    (generateFlowchart { initialSession with code := "while True: pass" }
        (FetchOutcome.success respEmptyFlowchart)).executionSteps
      = respEmptyFlowchart.execution_steps.getD [] :=
  ⟨(generation_failed_still_overwrites_slots _ _ (by decide) (by decide)).1,
   (generation_failed_still_overwrites_slots _ _ (by decide) (by decide)).2.1⟩

end CodeVisor
